import Mathlib

/-!
# Verification of myphysicslab excerpt: Timer, DisplayLine, PathObserver

Shallow embedding of the two JavaScript source files:
* `src/lab/view/DisplayLine.js` — the `DisplayLine` display object and the
  `myphysicslab.lab.util.Timer` periodic-callback scheduler,
* `src/sims/roller/PathObserver.js` — the `PathObserver` observer.

JavaScript numbers are modelled as exact rationals (`ℚ`); the one place where
the floating-point value `NaN` matters for control flow (`fired_sys_` is set to
`NaN` when idle, and `NaN >= period` is false) is modelled explicitly by an
`Option ℚ` whose `none` case stands for `NaN`.

The external scheduling primitive (`requestAnimationFrame` / `setTimeout` and
their cancel functions) is modelled as an environment `SchedEnv` holding the
set of outstanding scheduled-tick handles and a fresh-handle counter.  The
delay argument of the legacy `setTimeout` strategy plays no role in any claim
and is not recorded in the environment.
-/

namespace MplTimer

/-- State of a `myphysicslab.lab.util.Timer` instance, one field per private
field of the constructor.  `callBack_` is modelled by whether a callback is
installed (`true` ↔ non-null), since the callback's own behaviour never feeds
back into the Timer.  `fired_sys : none` models `fired_sys_ = NaN`. -/
structure TimerState where
  legacy : Bool
  timeoutID : Option Nat
  callBack : Bool
  period : ℚ
  firing : Bool
  fired_sys : Option ℚ
  delta : ℚ
deriving DecidableEq, Repr

/-- The scheduling-primitive environment: outstanding scheduled-tick handles
and the next fresh handle. -/
structure SchedEnv where
  nextId : Nat
  pending : List Nat
deriving DecidableEq, Repr

/-- Schedule one tick: returns the fresh handle and the new environment. -/
def SchedEnv.schedule (e : SchedEnv) : Nat × SchedEnv :=
  (e.nextId, ⟨e.nextId + 1, e.pending ++ [e.nextId]⟩)

/-- Cancel a previously scheduled tick (`clearTimeout` / `cancelAnimationFrame`);
a no-op when the handle is no longer pending. -/
def SchedEnv.cancel (e : SchedEnv) (h : Nat) : SchedEnv :=
  ⟨e.nextId, e.pending.erase h⟩

/-- The Timer constructor: `timeoutID_ = undefined`, `callBack_ = null`,
`period_ = 0`, `firing_ = false`, `fired_sys_ = NaN`, `delta_ = 0`. -/
def initTimer (opt_legacy : Bool) : TimerState :=
  { legacy := opt_legacy, timeoutID := none, callBack := false, period := 0,
    firing := false, fired_sys := none, delta := 0 }

/-- The scheduling environment before anything is scheduled. -/
def initEnv : SchedEnv := ⟨0, []⟩

/-- JavaScript `x % p` for the values reached in `timerCallback`: there
`x = elapsed ≥ period = p > 0`, where JavaScript's truncated-division remainder
coincides with the floor-division remainder used here. -/
def jsMod (x p : ℚ) : ℚ := x - p * (⌊x / p⌋ : ℚ)

/-- Result of running `Timer.prototype.timerCallback` (or an operation that
calls it): the new Timer state, the new scheduling environment, and whether
the user callback was invoked during the run. -/
structure TickResult where
  state : TimerState
  env : SchedEnv
  invoked : Bool
deriving DecidableEq, Repr

/-- Source `Timer.prototype.timerCallback`: if no callback is installed, return
without rescheduling.  Otherwise compute `elapsed = now - (fired_sys_ - delta_)`;
when `fired_sys_` is `NaN` the comparison `elapsed >= period` is false, so the
skip branch is taken.  If `elapsed >= period_`, invoke the callback, set
`fired_sys_ = now` and `delta_ = period_ > 0 ? elapsed % period_ : 0`.  In both
branches schedule the next tick and store its handle in `timeoutID_`. -/
def timerCallback (now : ℚ) (s : TimerState) (e : SchedEnv) : TickResult :=
  if s.callBack = false then ⟨s, e, false⟩
  else
    let sched := e.schedule
    match s.fired_sys with
    | none =>
        -- elapsed = NaN, and NaN >= period_ is false: skip, but reschedule
        ⟨{ s with timeoutID := some sched.1 }, sched.2, false⟩
    | some f =>
        let elapsed := now - (f - s.delta)
        if s.period ≤ elapsed then
          ⟨{ s with fired_sys := some now,
                    delta := if 0 < s.period then jsMod elapsed s.period else 0,
                    timeoutID := some sched.1 }, sched.2, true⟩
        else
          ⟨{ s with timeoutID := some sched.1 }, sched.2, false⟩

/-- Source `Timer.prototype.getPeriod`. -/
def getPeriod (s : TimerState) : ℚ := s.period

/-- Source `Timer.prototype.isFiring`. -/
def isFiring (s : TimerState) : Bool := s.firing

/-- Source `Timer.prototype.setPeriod`: throws (`none`) when `period < 0`, leaving the
state unchanged; otherwise stores the new period. -/
def setPeriod (period : ℚ) (s : TimerState) : Option TimerState :=
  if period < 0 then none else some { s with period := period }

/-- Source `Timer.prototype.stopFiring`: set `firing_ = false`; if a tick is
scheduled, cancel it and clear `timeoutID_`; set `fired_sys_ = NaN` and
`delta_ = 0`. -/
def stopFiring (s : TimerState) (e : SchedEnv) : TimerState × SchedEnv :=
  let e1 := match s.timeoutID with
    | some h => e.cancel h
    | none => e
  ({ s with firing := false, timeoutID := none, fired_sys := none, delta := 0 }, e1)

/-- Source `Timer.prototype.setCallBack`: `stopFiring()` first, then install the
callback. -/
def setCallBack (callBack : Bool) (s : TimerState) (e : SchedEnv) :
    TimerState × SchedEnv :=
  let p := stopFiring s e
  ({ p.1 with callBack := callBack }, p.2)

/-- The `1E-7` epsilon of `Timer.prototype.startFiring`. -/
def eps : ℚ := 1 / 10000000

/-- The assignments `startFiring` performs before calling `timerCallback`:
`firing_ = true`, `delta_ = 0`, `fired_sys_ = systemTime() - period_ - 1E-7`. -/
def startFiringAssign (now : ℚ) (s : TimerState) : TimerState :=
  { s with firing := true, delta := 0, fired_sys := some (now - s.period - eps) }

/-- Source `Timer.prototype.startFiring`: a no-op when already firing; otherwise
perform the bookkeeping assignments and invoke `timerCallback` synchronously. -/
def startFiring (now : ℚ) (s : TimerState) (e : SchedEnv) : TickResult :=
  if s.firing = false then timerCallback now (startFiringAssign now s) e
  else ⟨s, e, false⟩

/-- A scheduled tick fires: the handle leaves the pending set and the Timer's
internal handler runs. -/
def fireTick (now : ℚ) (h : Nat) (s : TimerState) (e : SchedEnv) : TickResult :=
  timerCallback now s ⟨e.nextId, e.pending.erase h⟩

/-- Reachable configurations of one Timer together with its scheduling
environment: the public operations, plus ticks that run only when actually
scheduled.  A failed `setPeriod` leaves the state unchanged (`Option.getD`). -/
inductive Reachable : TimerState → SchedEnv → Prop
  | init (opt_legacy : Bool) : Reachable (initTimer opt_legacy) initEnv
  | setPeriod {s e} (p : ℚ) : Reachable s e →
      Reachable ((setPeriod p s).getD s) e
  | setCallBack {s e} (cb : Bool) : Reachable s e →
      Reachable (setCallBack cb s e).1 (setCallBack cb s e).2
  | startFiring {s e} (now : ℚ) : Reachable s e →
      Reachable (startFiring now s e).state (startFiring now s e).env
  | stopFiring {s e} : Reachable s e →
      Reachable (stopFiring s e).1 (stopFiring s e).2
  | tick {s e} (now : ℚ) (h : Nat) (hp : h ∈ e.pending) : Reachable s e →
      Reachable (fireTick now h s e).state (fireTick now h s e).env

/-- Runs the internal tick handler once per entry of `nows` (the system time of
each run), threading state and environment, and reports whether any run
invoked the user callback.  This models an arbitrary sequence of forced runs
of `timerCallback`, with no intervening public operation. -/
def runTicksInvoked : List ℚ → TimerState → SchedEnv → Bool
  | [], _, _ => false
  | now :: rest, s, e =>
      let r := timerCallback now s e
      r.invoked || runTicksInvoked rest r.state r.env

/-- The drift invariant claimed by the spec: `delta_` is nonnegative, lies
below `period_` when `period_ > 0`, and is `0` when `period_ = 0`. -/
def driftInv (s : TimerState) : Prop :=
  0 ≤ s.delta ∧ (0 < s.period → s.delta < s.period) ∧ (s.period = 0 → s.delta = 0)

/-- The bookkeeping invariant relating a Timer to its scheduling environment:
the outstanding handles are exactly the one in `timeoutID_` (so at most one
tick is ever outstanding); when not firing there is no scheduled tick, no
last-fired time and no drift; and a tick is scheduled only while a callback
is installed. -/
def timerInv (s : TimerState) (e : SchedEnv) : Prop :=
  (s.timeoutID = none → e.pending = []) ∧
  (∀ h, s.timeoutID = some h → e.pending = [h]) ∧
  (s.firing = false → s.timeoutID = none ∧ s.fired_sys = none ∧ s.delta = 0) ∧
  (∀ h, s.timeoutID = some h → s.callBack = true)

/-- Step 1 of the trace refuting the drift invariant under `setPeriod`:
install a callback on a fresh Timer. -/
def cexP1 : TimerState × SchedEnv := setCallBack true (initTimer false) initEnv

/-- Step 2 of the trace: `setPeriod(10)`. -/
def cexS2 : TimerState := (setPeriod 10 cexP1.1).getD cexP1.1

/-- Step 3 of the trace: `startFiring()` at system time 0, which fires the
callback synchronously and leaves `delta_ = 1E-7`. -/
def cexR3 : TickResult := startFiring 0 cexS2 cexP1.2

/-- Step 4 of the trace: the scheduled tick (handle 0) fires at system time
15, so `elapsed = 15 + 1E-7 ≥ 10` and `delta_ = (15 + 1E-7) % 10 = 5 + 1E-7`. -/
def cexR4 : TickResult := fireTick 15 0 cexR3.state cexR3.env

/-- Step 5 of the trace: `setPeriod(2)` while firing leaves `delta_ = 5 + 1E-7`
which is not below the new period 2. -/
def cexS : TimerState := (setPeriod 2 cexR4.state).getD cexR4.state

end MplTimer

namespace MplDisplay

/-- State of a `myphysicslab.lab.view.DisplayLine`: the four optional style
fields (`color_`, `thickness_`, `lineDash_`, `zIndex_`, each `undefined` when
never set) and the optional prototype `proto_`.  The displayed `line_` plays
no role in the style accessors and is omitted.  An inductive type rather than
a structure because `proto_` is itself a `DisplayLine`. -/
inductive DisplayLine : Type where
  | mk : Option String → Option ℚ → Option (List ℚ) → Option ℚ →
      Option DisplayLine → DisplayLine

/-- Field `color_` of a `DisplayLine`. -/
def DisplayLine.color : DisplayLine → Option String
  | .mk c _ _ _ _ => c

/-- Field `thickness_` of a `DisplayLine`. -/
def DisplayLine.thickness : DisplayLine → Option ℚ
  | .mk _ t _ _ _ => t

/-- Field `lineDash_` of a `DisplayLine`. -/
def DisplayLine.lineDash : DisplayLine → Option (List ℚ)
  | .mk _ _ ld _ _ => ld

/-- Field `zIndex_` of a `DisplayLine`. -/
def DisplayLine.zIndex : DisplayLine → Option ℚ
  | .mk _ _ _ z _ => z

/-- Field `proto_` of a `DisplayLine`. -/
def DisplayLine.proto : DisplayLine → Option DisplayLine
  | .mk _ _ _ _ p => p

/-- Source `DisplayLine.prototype.getColor`: own `color_` if defined, else the
prototype's `getColor()`, else `'gray'`. -/
def DisplayLine.getColor : DisplayLine → String
  | .mk c _ _ _ p =>
    match c with
    | some col => col
    | none =>
      match p with
      | some pr => pr.getColor
      | none => "gray"

/-- Source `DisplayLine.prototype.getThickness`: own `thickness_` if defined,
else the prototype's `getThickness()`, else `4.0`. -/
def DisplayLine.getThickness : DisplayLine → ℚ
  | .mk _ t _ _ p =>
    match t with
    | some th => th
    | none =>
      match p with
      | some pr => pr.getThickness
      | none => 4

/-- Source `DisplayLine.prototype.getLineDash`: own `lineDash_` if defined,
else the prototype's `getLineDash()`, else the empty array. -/
def DisplayLine.getLineDash : DisplayLine → List ℚ
  | .mk _ _ ld _ p =>
    match ld with
    | some d => d
    | none =>
      match p with
      | some pr => pr.getLineDash
      | none => []

/-- Source `DisplayLine.prototype.getZIndex`: own `zIndex_` if defined, else
the prototype's `getZIndex()`, else `0`. -/
def DisplayLine.getZIndex : DisplayLine → ℚ
  | .mk _ _ _ z p =>
    match z with
    | some zi => zi
    | none =>
      match p with
      | some pr => pr.getZIndex
      | none => 0

end MplDisplay

namespace MplPathObserver

/-- A `DisplayPath` as `PathObserver` uses it: an identity (JavaScript object
identity, needed because `DisplayList.remove` removes a specific object) and
the list of `NumericalPath`s it displays (`NumericalPath`s are identified by
`Nat` ids).  Its style and screen-rect fields play no role in the claim. -/
structure DisplayPath where
  id : Nat
  paths : List Nat
deriving DecidableEq, Repr

/-- One entry of the `memObjs_` list: the `NumericalPath`, the id of the
`GenericObserver` made for it, and the `DisplayPath` made for it. -/
structure MemObj where
  simObj : Nat
  obs : Nat
  dispPath : DisplayPath
deriving DecidableEq, Repr

/-- State of a `PathObserver`: the observed `SimView`'s display list, the
`memObjs_` list, a counter providing fresh object identities, how many times
`simRectSetter_` has been invoked, and whether a `simRectSetter_` was
supplied. -/
structure PathObserverState where
  displayList : List DisplayPath
  memObjs : List MemObj
  nextId : Nat
  resizeCount : Nat
  hasRectSetter : Bool
deriving DecidableEq, Repr

/-- A `PathObserver` as constructed: empty `memObjs_`, observing a display
list (taken to start empty for the reachability analysis). -/
def initPO (hasRectSetter : Bool) : PathObserverState :=
  { displayList := [], memObjs := [], nextId := 0, resizeCount := 0,
    hasRectSetter := hasRectSetter }

/-- Modelled from the spec: `DisplayList.find` (class `DisplayList` is not in
the excerpt) returns the display object displaying the given sim object, or
null when there is none; for paths, the `DisplayPath` whose path list
contains the `NumericalPath`. -/
def find (dl : List DisplayPath) (np : Nat) : Option DisplayPath :=
  dl.find? (fun dp => np ∈ dp.paths)

/-- Source `PathObserver.prototype.addPath`: if the display list already has a
DisplayPath for `np`, return without changes.  Otherwise build a new
`DisplayPath` showing only `np`, append it to the display list, invoke
`simRectSetter_` when one was supplied, create a `GenericObserver`, and push
the memo entry.  (The new `DisplayPath` and the observer each consume a fresh
identity; the screen rect and the resize geometry are not modelled, only that
a resize happened.) -/
def addPath (np : Nat) (st : PathObserverState) : PathObserverState :=
  if (find st.displayList np).isSome then st
  else
    let displayPath : DisplayPath := ⟨st.nextId, [np]⟩
    { st with
      displayList := st.displayList ++ [displayPath],
      resizeCount := if st.hasRectSetter then st.resizeCount + 1
                     else st.resizeCount,
      memObjs := st.memObjs ++ [⟨np, st.nextId + 1, displayPath⟩],
      nextId := st.nextId + 2 }

/-- Source `PathObserver.prototype.removePath`: find the memo entry for `np`;
if none, do nothing; otherwise remove its `DisplayPath` from the display list,
disconnect its observer, and drop the memo entry. -/
def removePath (np : Nat) (st : PathObserverState) : PathObserverState :=
  match st.memObjs.find? (fun m => m.simObj = np) with
  | none => st
  | some memObj =>
    { st with
      displayList := st.displayList.erase memObj.dispPath,
      memObjs := st.memObjs.erase memObj }

/-- Names of `SimList` events as far as `observe` distinguishes them. -/
inductive EvName : Type where
  | added
  | removed
  | other
deriving DecidableEq, Repr

/-- Source `PathObserver.prototype.observe`: react only to events from the
observed `SimList` whose value is a `NumericalPath`; `OBJECT_ADDED` calls
`addPath`, `OBJECT_REMOVED` calls `removePath`. -/
def observe (subjIsSimList : Bool) (valIsNumericalPath : Bool) (np : Nat)
    (name : EvName) (st : PathObserverState) : PathObserverState :=
  if subjIsSimList then
    if valIsNumericalPath then
      match name with
      | .added => addPath np st
      | .removed => removePath np st
      | .other => st
    else st
  else st

/-- States of a `PathObserver` reachable through the events it observes. -/
inductive POReachable : PathObserverState → Prop
  | init (hasRectSetter : Bool) : POReachable (initPO hasRectSetter)
  | observe {st} (b1 b2 : Bool) (np : Nat) (name : EvName) :
      POReachable st → POReachable (observe b1 b2 np name st)

/-- Counts the display objects in the display list that display path `np`. -/
def dupCount (st : PathObserverState) (np : Nat) : Nat :=
  (st.displayList.filter (fun dp => decide (np ∈ dp.paths))).length

end MplPathObserver

namespace MplTimer

theorem jsMod_nonneg {x p : ℚ} (hp : 0 < p) : 0 ≤ jsMod x p := by
  have h1 : (⌊x / p⌋ : ℚ) ≤ x / p := Int.floor_le (x / p)
  have h2 : p * (⌊x / p⌋ : ℚ) ≤ p * (x / p) := mul_le_mul_of_nonneg_left h1 hp.le
  have h3 : p * (x / p) = x := by field_simp
  unfold jsMod
  linarith

theorem jsMod_lt {x p : ℚ} (hp : 0 < p) : jsMod x p < p := by
  have h1 : x / p < (⌊x / p⌋ : ℚ) + 1 := Int.lt_floor_add_one (x / p)
  have h2 : p * (x / p) < p * ((⌊x / p⌋ : ℚ) + 1) := by
    exact mul_lt_mul_of_pos_left h1 hp
  have h3 : p * (x / p) = x := by field_simp
  unfold jsMod
  nlinarith

theorem timerCallback_firing (now : ℚ) (s : TimerState) (e : SchedEnv) :
    (timerCallback now s e).state.firing = s.firing := by
  unfold timerCallback SchedEnv.schedule
  split
  · rfl
  · cases s.fired_sys
    · rfl
    · dsimp only
      split <;> rfl

theorem timerCallback_callBack (now : ℚ) (s : TimerState) (e : SchedEnv) :
    (timerCallback now s e).state.callBack = s.callBack := by
  unfold timerCallback SchedEnv.schedule
  split
  · rfl
  · cases s.fired_sys
    · rfl
    · dsimp only
      split <;> rfl

theorem timerCallback_period (now : ℚ) (s : TimerState) (e : SchedEnv) :
    (timerCallback now s e).state.period = s.period := by
  unfold timerCallback SchedEnv.schedule
  split
  · rfl
  · cases s.fired_sys
    · rfl
    · dsimp only
      split <;> rfl

theorem timerCallback_schedules (now : ℚ) (s : TimerState) (e : SchedEnv)
    (hcb : s.callBack = true) :
    (timerCallback now s e).state.timeoutID = some e.nextId ∧
    (timerCallback now s e).env = ⟨e.nextId + 1, e.pending ++ [e.nextId]⟩ := by
  unfold timerCallback SchedEnv.schedule
  rw [hcb]
  simp only [Bool.true_eq_false, if_false]
  cases s.fired_sys
  · exact ⟨rfl, rfl⟩
  · dsimp only
    split <;> exact ⟨rfl, rfl⟩

theorem timerCallback_fired_sys_none (now : ℚ) (s : TimerState) (e : SchedEnv)
    (hf : s.fired_sys = none) :
    (timerCallback now s e).invoked = false ∧
    (timerCallback now s e).state.fired_sys = none := by
  unfold timerCallback SchedEnv.schedule
  rw [hf]
  split
  · exact ⟨rfl, hf⟩
  · exact ⟨rfl, rfl⟩

/-- C1: on every run of the internal tick handler with a callback installed
(and a last-fired time recorded), with `elapsed = now - (fired_sys_ - delta_)`:
if `elapsed ≥ period_` the callback is invoked, `fired_sys_` becomes `now` and
`delta_` becomes `elapsed % period_` when `period_ > 0` and `0` otherwise; if
`elapsed < period_` nothing is invoked and no bookkeeping changes; in both
branches exactly one next tick is scheduled and its handle stored. -/
theorem timer_tick_behavior (now f : ℚ) (s : TimerState) (e : SchedEnv)
    (hcb : s.callBack = true) (hf : s.fired_sys = some f) :
    (s.period ≤ now - (f - s.delta) →
      timerCallback now s e =
        ⟨{ s with fired_sys := some now,
                  delta := if 0 < s.period then jsMod (now - (f - s.delta)) s.period
                           else 0,
                  timeoutID := some e.nextId },
         ⟨e.nextId + 1, e.pending ++ [e.nextId]⟩, true⟩) ∧
    (now - (f - s.delta) < s.period →
      timerCallback now s e =
        ⟨{ s with timeoutID := some e.nextId },
         ⟨e.nextId + 1, e.pending ++ [e.nextId]⟩, false⟩) := by
  unfold timerCallback SchedEnv.schedule
  rw [hcb, hf]
  simp only [Bool.true_eq_false, if_false]
  constructor
  · intro h
    rw [if_pos h]
  · intro h
    rw [if_neg (not_le.mpr h)]

/-- Witness for C1: both branches evaluated at concrete states. -/
theorem timer_tick_behavior_witness :
    timerCallback 2 ⟨false, none, true, 1, true, some 0, 0⟩ initEnv =
      ⟨⟨false, some 0, true, 1, true, some 2, 0⟩, ⟨1, [0]⟩, true⟩ ∧
    timerCallback 2 ⟨false, none, true, 5, true, some 0, 0⟩ initEnv =
      ⟨⟨false, some 0, true, 5, true, some 0, 0⟩, ⟨1, [0]⟩, false⟩ := by
  constructor
  · have h := (timer_tick_behavior 2 0 ⟨false, none, true, 1, true, some 0, 0⟩
      initEnv rfl rfl).1 (by norm_num)
    rw [h]
    norm_num [jsMod, initEnv]
  · have h := (timer_tick_behavior 2 0 ⟨false, none, true, 5, true, some 0, 0⟩
      initEnv rfl rfl).2 (by norm_num)
    rw [h]
    norm_num [initEnv]

theorem timerCallback_noCallback (now : ℚ) (s : TimerState) (e : SchedEnv)
    (hcb : s.callBack = false) : timerCallback now s e = ⟨s, e, false⟩ := by
  unfold timerCallback
  rw [hcb]
  rfl

theorem timerCallback_invoked_of_le (now f : ℚ) (s : TimerState) (e : SchedEnv)
    (hcb : s.callBack = true) (hf : s.fired_sys = some f)
    (h : s.period ≤ now - (f - s.delta)) :
    (timerCallback now s e).invoked = true := by
  unfold timerCallback SchedEnv.schedule
  rw [hcb, hf]
  simp only [Bool.true_eq_false, if_false]
  rw [if_pos h]

theorem startFiring_not_firing (now : ℚ) (s : TimerState) (e : SchedEnv)
    (h : s.firing = false) :
    startFiring now s e = timerCallback now (startFiringAssign now s) e := by
  unfold startFiring
  rw [h]
  rfl

theorem startFiring_firing (now : ℚ) (s : TimerState) (e : SchedEnv)
    (h : s.firing = true) : startFiring now s e = ⟨s, e, false⟩ := by
  unfold startFiring
  rw [h]
  rfl

/-- C4: after `stopFiring()`, no run of the tick handler invokes the callback,
for any sequence of subsequent forced runs of the handler (at arbitrary system
times, against an arbitrary scheduling environment), because `fired_sys_` was
reset to `NaN` and every elapsed-time comparison against `NaN` is false. -/
theorem timer_stop_silences (s : TimerState) (e e' : SchedEnv) (nows : List ℚ) :
    runTicksInvoked nows (stopFiring s e).1 e' = false := by
  have key : ∀ (ns : List ℚ) (t : TimerState) (ev : SchedEnv),
      t.fired_sys = none → runTicksInvoked ns t ev = false := by
    intro ns
    induction ns with
    | nil => intro t ev _; rfl
    | cons now rest ih =>
        intro t ev hf
        have h := timerCallback_fired_sys_none now t ev hf
        show ((timerCallback now t ev).invoked ||
          runTicksInvoked rest (timerCallback now t ev).state
            (timerCallback now t ev).env) = false
        rw [h.1, ih _ _ h.2]
        rfl
  exact key nows _ e' rfl

/-- C5: on a Timer that is not firing, with a callback installed and a
nonnegative period, `startFiring()` performs the assignments `firing_ = true`,
`delta_ = 0`, `fired_sys_ = now - period_ - 1E-7`, then invokes the internal
tick handler synchronously during the very call, and that run invokes the
user callback (the elapsed-time check succeeds even when the period is 0). -/
theorem timer_startFiring_synchronous (now : ℚ) (s : TimerState) (e : SchedEnv)
    (hfi : s.firing = false) (hcb : s.callBack = true) (_hp : 0 ≤ s.period) :
    (startFiringAssign now s).firing = true ∧
    (startFiringAssign now s).delta = 0 ∧
    (startFiringAssign now s).fired_sys = some (now - s.period - eps) ∧
    startFiring now s e = timerCallback now (startFiringAssign now s) e ∧
    (startFiring now s e).invoked = true ∧
    (startFiring now s e).state.firing = true := by
  have hstep := startFiring_not_firing now s e hfi
  refine ⟨rfl, rfl, rfl, hstep, ?_, ?_⟩
  · rw [hstep]
    apply timerCallback_invoked_of_le now (now - s.period - eps)
        (startFiringAssign now s) e hcb rfl
    show s.period ≤ now - (now - s.period - eps - 0)
    unfold eps
    linarith
  · rw [hstep, timerCallback_firing]
    rfl

/-- Witness for C5: a fresh Timer with a callback installed and period 0
fires the callback during `startFiring()` itself. -/
theorem timer_startFiring_synchronous_witness :
    (startFiring 3 (setCallBack true (initTimer false) initEnv).1
        (setCallBack true (initTimer false) initEnv).2).invoked = true :=
  (timer_startFiring_synchronous 3 (setCallBack true (initTimer false) initEnv).1
    (setCallBack true (initTimer false) initEnv).2 rfl rfl le_rfl).2.2.2.2.1

/-- C6: `startFiring()` on an already-firing Timer changes no Timer state, no
scheduling environment, and invokes nothing; and from an idle state with a
callback installed and nothing scheduled, two consecutive `startFiring()`
calls leave exactly one outstanding scheduled tick, not two. -/
theorem timer_startFiring_idempotent (now now2 : ℚ) (s : TimerState)
    (e : SchedEnv) :
    (s.firing = true → startFiring now s e = ⟨s, e, false⟩) ∧
    (s.firing = false → s.callBack = true → e.pending = [] →
      startFiring now2 (startFiring now s e).state (startFiring now s e).env =
        ⟨(startFiring now s e).state, (startFiring now s e).env, false⟩ ∧
      (startFiring now s e).env.pending = [e.nextId] ∧
      (startFiring now2 (startFiring now s e).state
          (startFiring now s e).env).env.pending = [e.nextId]) := by
  constructor
  · intro h
    exact startFiring_firing now s e h
  · intro hfi hcb hpend
    have hstep := startFiring_not_firing now s e hfi
    have hfir : (startFiring now s e).state.firing = true := by
      rw [hstep, timerCallback_firing]
      rfl
    have hsched := timerCallback_schedules now (startFiringAssign now s) e hcb
    have hpend1 : (startFiring now s e).env.pending = [e.nextId] := by
      rw [hstep, hsched.2, hpend]
      rfl
    have hnoop := startFiring_firing now2 (startFiring now s e).state
      (startFiring now s e).env hfir
    refine ⟨hnoop, hpend1, ?_⟩
    rw [hnoop]
    exact hpend1

/-- Witness for C6: both conjuncts at a concrete firing / idle Timer. -/
theorem timer_startFiring_idempotent_witness :
    startFiring 1 ⟨false, none, true, 0, true, some 0, 0⟩ initEnv =
      ⟨⟨false, none, true, 0, true, some 0, 0⟩, initEnv, false⟩ ∧
    (startFiring 2 (startFiring 1 (setCallBack true (initTimer false) initEnv).1
          (setCallBack true (initTimer false) initEnv).2).state
        (startFiring 1 (setCallBack true (initTimer false) initEnv).1
          (setCallBack true (initTimer false) initEnv).2).env).env.pending =
      [initEnv.nextId] :=
  ⟨(timer_startFiring_idempotent 1 2 ⟨false, none, true, 0, true, some 0, 0⟩
      initEnv).1 rfl,
   ((timer_startFiring_idempotent 1 2 (setCallBack true (initTimer false) initEnv).1
      (setCallBack true (initTimer false) initEnv).2).2 rfl rfl rfl).2.2⟩

/-- C7: `setCallBack` performs the full effect of `stopFiring` (firing flag
cleared, pending tick cancelled, `fired_sys_` and `delta_` reset) and then
installs the new callback; in particular `setCallBack(null)` leaves a Timer
on which `isFiring()` is false. -/
theorem timer_setCallBack_stops_then_installs (cb : Bool) (s : TimerState)
    (e : SchedEnv) :
    (setCallBack cb s e).1 = { (stopFiring s e).1 with callBack := cb } ∧
    (setCallBack cb s e).2 = (stopFiring s e).2 ∧
    (setCallBack cb s e).1 =
      { s with firing := false, timeoutID := none, fired_sys := none,
               delta := 0, callBack := cb } ∧
    isFiring (setCallBack false s e).1 = false :=
  ⟨rfl, rfl, rfl, rfl⟩

/-- C3: `setPeriod` with a negative argument throws and leaves the state (and
hence `getPeriod`) unchanged; with a nonnegative argument it does not throw
and `getPeriod` afterward returns the argument. -/
theorem timer_setPeriod_spec (s : TimerState) (p : ℚ) :
    (p < 0 → setPeriod p s = none ∧
      getPeriod ((setPeriod p s).getD s) = getPeriod s) ∧
    (0 ≤ p → setPeriod p s = some { s with period := p } ∧
      getPeriod ((setPeriod p s).getD s) = p) := by
  unfold setPeriod getPeriod
  constructor
  · intro h
    rw [if_pos h]
    exact ⟨rfl, rfl⟩
  · intro h
    rw [if_neg (not_lt.mpr h)]
    exact ⟨rfl, rfl⟩

/-- Witness for C3: `setPeriod(-1)` throws on a fresh Timer and the period
stays `0`; `setPeriod(5)` succeeds and the period becomes `5`. -/
theorem timer_setPeriod_spec_witness :
    (setPeriod (-1) (initTimer false) = none ∧
      getPeriod ((setPeriod (-1) (initTimer false)).getD (initTimer false)) =
        getPeriod (initTimer false)) ∧
    (setPeriod 5 (initTimer false) = some { initTimer false with period := 5 } ∧
      getPeriod ((setPeriod 5 (initTimer false)).getD (initTimer false)) = 5) :=
  ⟨(timer_setPeriod_spec (initTimer false) (-1)).1 (by norm_num),
   (timer_setPeriod_spec (initTimer false) 5).2 (by norm_num)⟩

theorem driftInv_timerCallback (now : ℚ) (s : TimerState) (e : SchedEnv)
    (h : driftInv s) : driftInv (timerCallback now s e).state := by
  unfold timerCallback SchedEnv.schedule
  split
  · exact h
  · cases s.fired_sys
    · exact h
    · dsimp only
      split
      · refine ⟨?_, ?_, ?_⟩
        · show (0 : ℚ) ≤ if 0 < s.period then _ else 0
          split
          · exact jsMod_nonneg (by assumption)
          · exact le_refl 0
        · intro hpos
          show (if 0 < s.period then _ else (0 : ℚ)) < s.period
          rw [if_pos hpos]
          exact jsMod_lt hpos
        · intro hz
          show (if 0 < s.period then _ else (0 : ℚ)) = 0
          rw [if_neg]
          rw [hz]
          exact lt_irrefl 0
      · exact h

theorem driftInv_startFiringAssign (now : ℚ) (s : TimerState) :
    driftInv (startFiringAssign now s) :=
  ⟨le_refl 0, fun hpos => hpos, fun _ => rfl⟩

theorem driftInv_startFiring (now : ℚ) (s : TimerState) (e : SchedEnv)
    (h : driftInv s) : driftInv (startFiring now s e).state := by
  unfold startFiring
  split
  · exact driftInv_timerCallback now _ e (driftInv_startFiringAssign now s)
  · exact h

theorem driftInv_stopFiring (s : TimerState) (e : SchedEnv) :
    driftInv (stopFiring s e).1 :=
  ⟨le_refl 0, fun hpos => hpos, fun _ => rfl⟩

theorem driftInv_setCallBack (cb : Bool) (s : TimerState) (e : SchedEnv) :
    driftInv (setCallBack cb s e).1 :=
  ⟨le_refl 0, fun hpos => hpos, fun _ => rfl⟩

/-- C2 (amended): the drift bookkeeping invariant — `delta_ ∈ [0, period_)`
when `period_ > 0` and `delta_ = 0` when `period_ = 0` — is preserved by the
tick handler, by `startFiring`, by `stopFiring`, by `setCallBack` and by a
scheduled tick firing; `setPeriod` is the exception (see the counterexample):
called while `delta_` is nonzero it can leave `delta_ ≥ period_ > 0` or
`period_ = 0 ≠ delta_`. -/
theorem timer_drift_invariant (now : ℚ) (cb : Bool) (hid : Nat)
    (s : TimerState) (e : SchedEnv) (h : driftInv s) :
    driftInv (timerCallback now s e).state ∧
    driftInv (startFiring now s e).state ∧
    driftInv (stopFiring s e).1 ∧
    driftInv (setCallBack cb s e).1 ∧
    driftInv (fireTick now hid s e).state :=
  ⟨driftInv_timerCallback now s e h, driftInv_startFiring now s e h,
   driftInv_stopFiring s e, driftInv_setCallBack cb s e,
   driftInv_timerCallback now s _ h⟩

/-- Witness for C2 (amended), at a fresh Timer whose drift invariant holds. -/
theorem timer_drift_invariant_witness :
    driftInv (timerCallback 1 (initTimer false) initEnv).state ∧
    driftInv (startFiring 1 (initTimer false) initEnv).state ∧
    driftInv (stopFiring (initTimer false) initEnv).1 ∧
    driftInv (setCallBack true (initTimer false) initEnv).1 ∧
    driftInv (fireTick 1 0 (initTimer false) initEnv).state :=
  timer_drift_invariant 1 true 0 (initTimer false) initEnv
    ⟨le_refl 0, fun hpos => hpos, fun _ => rfl⟩

theorem cexR3_eq :
    cexR3 = ⟨⟨false, some 0, true, 10, true, some 0, eps⟩, ⟨1, [0]⟩, true⟩ := by
  show startFiring 0 cexS2 cexP1.2 = _
  have h2 : cexS2 = ⟨false, none, true, 10, false, none, 0⟩ := by
    simp [cexS2, cexP1, setPeriod, setCallBack, stopFiring, initTimer, initEnv]
    norm_num
  have hp2 : cexP1.2 = ⟨0, []⟩ := by
    simp [cexP1, setCallBack, stopFiring, initTimer, initEnv]
  rw [h2, hp2]
  simp only [startFiring, startFiringAssign, timerCallback, SchedEnv.schedule]
  norm_num [jsMod, eps]

theorem cexR4_eq :
    cexR4 = ⟨⟨false, some 1, true, 10, true, some 15, 5 + eps⟩, ⟨2, [1]⟩, true⟩ := by
  show fireTick 15 0 cexR3.state cexR3.env = _
  rw [cexR3_eq]
  simp only [fireTick, timerCallback, SchedEnv.schedule]
  norm_num [jsMod, eps]

theorem cexS_eq : cexS = ⟨false, some 1, true, 2, true, some 15, 5 + eps⟩ := by
  show (setPeriod 2 cexR4.state).getD cexR4.state = _
  rw [cexR4_eq]
  norm_num [setPeriod]

/-- Counterexample to C2 as stated: the state reached by installing a
callback, `setPeriod(10)`, `startFiring()` at system time 0, letting the
scheduled tick fire at system time 15 (leaving `delta_ = 5 + 1E-7`), and then
`setPeriod(2)` while firing, is reachable, has `period_ = 2 > 0`, and yet its
`delta_` is not below `period_`. -/
theorem timer_drift_invariant_cex :
    Reachable cexS cexR4.env ∧ 0 < cexS.period ∧ ¬ (cexS.delta < cexS.period) := by
  refine ⟨?_, ?_, ?_⟩
  · have h0 := Reachable.init false
    have h1 := Reachable.setCallBack true h0
    have h2 := Reachable.setPeriod 10 h1
    have h3 := Reachable.startFiring 0 h2
    have hp : 0 ∈ cexR3.env.pending := by
      rw [cexR3_eq]
      simp
    have h4 := Reachable.tick 15 0 hp h3
    have h5 := Reachable.setPeriod 2 h4
    exact h5
  · rw [cexS_eq]
    norm_num
  · rw [cexS_eq]
    norm_num [eps]

theorem stopFiring_env_none {s : TimerState} (e : SchedEnv)
    (hto : s.timeoutID = none) : (stopFiring s e).2 = e := by
  unfold stopFiring
  rw [hto]

theorem stopFiring_env_some {s : TimerState} (e : SchedEnv) {h0 : Nat}
    (hto : s.timeoutID = some h0) :
    (stopFiring s e).2 = ⟨e.nextId, e.pending.erase h0⟩ := by
  unfold stopFiring SchedEnv.cancel
  rw [hto]

theorem bool_true_of_ne_false {b : Bool} (h : ¬ b = false) : b = true := by
  revert h
  cases b
  · intro hc
    exact absurd rfl hc
  · intro _
    rfl

theorem stopFiring_pending_nil {s : TimerState} {e : SchedEnv}
    (inv : timerInv s e) : (stopFiring s e).2.pending = [] := by
  cases hto : s.timeoutID with
  | none =>
      rw [stopFiring_env_none e hto]
      exact inv.1 hto
  | some h0 =>
      rw [stopFiring_env_some e hto]
      show e.pending.erase h0 = []
      rw [inv.2.1 _ hto]
      exact List.erase_cons_head h0 []

theorem reachable_timerInv {s : TimerState} {e : SchedEnv}
    (h : Reachable s e) : timerInv s e := by
  induction h with
  | init opt_legacy =>
      exact ⟨fun _ => rfl, fun h0 hh => Option.noConfusion hh,
        fun _ => ⟨rfl, rfl, rfl⟩, fun h0 hh => Option.noConfusion hh⟩
  | @setPeriod s e p _ ih =>
      unfold setPeriod
      split
      · exact ih
      · exact ih
  | @setCallBack s e cb _ ih =>
      refine ⟨?_, ?_, ?_, ?_⟩
      · intro _
        show (stopFiring s e).2.pending = []
        exact stopFiring_pending_nil ih
      · intro h0 hh
        exact Option.noConfusion hh
      · intro _
        exact ⟨rfl, rfl, rfl⟩
      · intro h0 hh
        exact Option.noConfusion hh
  | @startFiring s e now _ ih =>
      by_cases hfi : s.firing = false
      · obtain ⟨hto, hfs, hd⟩ := ih.2.2.1 hfi
        have hpend : e.pending = [] := ih.1 hto
        rw [startFiring_not_firing now s e hfi]
        by_cases hcb : s.callBack = true
        · have hs := timerCallback_schedules now (startFiringAssign now s) e hcb
          refine ⟨?_, ?_, ?_, ?_⟩
          · intro h0
            rw [hs.1] at h0
            exact Option.noConfusion h0
          · intro h1 h0
            rw [hs.1] at h0
            injection h0 with h0
            rw [← h0, hs.2, hpend]
            rfl
          · intro h0
            rw [timerCallback_firing] at h0
            exact Bool.noConfusion h0
          · intro h1 _
            rw [timerCallback_callBack]
            exact hcb
        · have hcb' : s.callBack = false := by
            revert hcb
            cases s.callBack
            · intro _
              rfl
            · intro hc
              exact absurd rfl hc
          rw [timerCallback_noCallback now (startFiringAssign now s) e hcb']
          refine ⟨fun _ => hpend, ?_, ?_, ?_⟩
          · intro h1 h0
            have h2 : s.timeoutID = some h1 := h0
            rw [hto] at h2
            exact Option.noConfusion h2
          · intro h0
            exact Bool.noConfusion h0
          · intro h1 h0
            have h2 : s.timeoutID = some h1 := h0
            rw [hto] at h2
            exact Option.noConfusion h2
      · rw [startFiring_firing now s e (bool_true_of_ne_false hfi)]
        exact ih
  | @stopFiring s e _ ih =>
      refine ⟨?_, ?_, ?_, ?_⟩
      · intro _
        exact stopFiring_pending_nil ih
      · intro h0 hh
        exact Option.noConfusion hh
      · intro _
        exact ⟨rfl, rfl, rfl⟩
      · intro h0 hh
        exact Option.noConfusion hh
  | @tick s e now hid hp _ ih =>
      cases hto : s.timeoutID with
      | none =>
          rw [ih.1 hto] at hp
          exact absurd hp (List.not_mem_nil hid)
      | some h0 =>
          have hpend := ih.2.1 h0 hto
          have hcb := ih.2.2.2 h0 hto
          have hfir : s.firing = true := by
            revert hto
            cases hf : s.firing
            · rw [(ih.2.2.1 hf).1]
              intro hc
              exact Option.noConfusion hc
            · intro _
              rfl
          have hs := timerCallback_schedules now s
            ⟨e.nextId, e.pending.erase hid⟩ hcb
          show timerInv (timerCallback now s ⟨e.nextId, e.pending.erase hid⟩).state
            (timerCallback now s ⟨e.nextId, e.pending.erase hid⟩).env
          refine ⟨?_, ?_, ?_, ?_⟩
          · intro hcon
            rw [hs.1] at hcon
            exact Option.noConfusion hcon
          · intro h1 hh
            rw [hs.1] at hh
            injection hh with hh
            rw [← hh, hs.2]
            show e.pending.erase hid ++ [e.nextId] = [e.nextId]
            rw [hpend] at hp ⊢
            have heq : hid = h0 := List.mem_singleton.mp hp
            rw [heq, List.erase_cons_head]
            rfl
          · intro hcon
            rw [timerCallback_firing, hfir] at hcon
            exact Bool.noConfusion hcon
          · intro h1 _
            rw [timerCallback_callBack]
            exact hcb

/-- C8: in every reachable configuration, a non-firing Timer has no scheduled
tick, at most one scheduled tick is outstanding, and `stopFiring()` on a
non-firing Timer changes neither the Timer state nor the scheduling
environment. -/
theorem timer_scheduling_invariant (s : TimerState) (e : SchedEnv)
    (h : Reachable s e) :
    (s.firing = false → s.timeoutID = none) ∧
    e.pending.length ≤ 1 ∧
    (s.firing = false → stopFiring s e = (s, e)) := by
  have inv := reachable_timerInv h
  refine ⟨fun hf => (inv.2.2.1 hf).1, ?_, ?_⟩
  · cases hto : s.timeoutID
    · rw [inv.1 hto]
      exact Nat.zero_le 1
    · rw [inv.2.1 _ hto]
      exact le_refl 1
  · intro hf
    obtain ⟨hto, hfs, hd⟩ := inv.2.2.1 hf
    unfold stopFiring
    rw [hto]
    cases s with
    | mk l t c p fi fs d =>
        simp only at hf hto hfs hd
        subst hf hto hfs hd
        rfl

/-- Witness for C8, at the freshly constructed Timer. -/
theorem timer_scheduling_invariant_witness :
    ((initTimer false).firing = false → (initTimer false).timeoutID = none) ∧
    initEnv.pending.length ≤ 1 ∧
    ((initTimer false).firing = false →
      stopFiring (initTimer false) initEnv = (initTimer false, initEnv)) :=
  timer_scheduling_invariant (initTimer false) initEnv (Reachable.init false)

end MplTimer

namespace MplDisplay

/-- C9: each `DisplayLine` style accessor resolves by the three-level
fallback: own field when defined, else the prototype's accessor when a
prototype was supplied, else the default (`'gray'`, `4.0`, the empty array,
`0` respectively). -/
theorem displayLine_style_fallback :
    ∀ (c : String) (th : ℚ) (d : List ℚ) (z : ℚ) (oc : Option String)
      (ot : Option ℚ) (od : Option (List ℚ)) (oz : Option ℚ)
      (op : Option DisplayLine) (pr : DisplayLine),
    (DisplayLine.mk (some c) ot od oz op).getColor = c ∧
    (DisplayLine.mk none ot od oz (some pr)).getColor = pr.getColor ∧
    (DisplayLine.mk none ot od oz none).getColor = "gray" ∧
    (DisplayLine.mk oc (some th) od oz op).getThickness = th ∧
    (DisplayLine.mk oc none od oz (some pr)).getThickness = pr.getThickness ∧
    (DisplayLine.mk oc none od oz none).getThickness = 4 ∧
    (DisplayLine.mk oc ot (some d) oz op).getLineDash = d ∧
    (DisplayLine.mk oc ot none oz (some pr)).getLineDash = pr.getLineDash ∧
    (DisplayLine.mk oc ot none oz none).getLineDash = [] ∧
    (DisplayLine.mk oc ot od (some z) op).getZIndex = z ∧
    (DisplayLine.mk oc ot od none (some pr)).getZIndex = pr.getZIndex ∧
    (DisplayLine.mk oc ot od none none).getZIndex = 0 := by
  intro c th d z oc ot od oz op pr
  exact ⟨rfl, rfl, rfl, rfl, rfl, rfl, rfl, rfl, rfl, rfl, rfl, rfl⟩

end MplDisplay

namespace MplPathObserver

theorem filter_eq_nil_of_find_none {dl : List DisplayPath} {np : Nat}
    (h : find dl np = none) :
    dl.filter (fun dp => decide (np ∈ dp.paths)) = [] := by
  unfold find at h
  rw [List.find?_eq_none] at h
  rw [List.filter_eq_nil_iff]
  exact h

theorem addPath_found {np : Nat} {st : PathObserverState}
    (h : (find st.displayList np).isSome) : addPath np st = st := by
  unfold addPath
  rw [if_pos h]

theorem dupCount_addPath (np np' : Nat) (st : PathObserverState)
    (h : dupCount st np ≤ 1) : dupCount (addPath np' st) np ≤ 1 := by
  unfold addPath
  by_cases hf : (find st.displayList np').isSome
  · rw [if_pos hf]
    exact h
  · rw [if_neg hf]
    have hnone : find st.displayList np' = none :=
      Option.not_isSome_iff_eq_none.mp hf
    unfold dupCount at h ⊢
    rw [List.filter_append]
    by_cases hnp : np = np'
    · subst hnp
      rw [filter_eq_nil_of_find_none hnone]
      simp
    · have : (([⟨st.nextId, [np']⟩] : List DisplayPath).filter
          (fun dp => decide (np ∈ dp.paths))) = [] := by
        simp [hnp]
      rw [this, List.append_nil]
      exact h

theorem dupCount_removePath (np np' : Nat) (st : PathObserverState)
    (h : dupCount st np ≤ 1) : dupCount (removePath np' st) np ≤ 1 := by
  unfold removePath
  cases st.memObjs.find? (fun m => m.simObj = np') with
  | none => exact h
  | some memObj =>
      refine le_trans ?_ h
      show (List.filter (fun dp => decide (np ∈ dp.paths))
          (st.displayList.erase memObj.dispPath)).length ≤
        (List.filter (fun dp => decide (np ∈ dp.paths)) st.displayList).length
      exact ((st.displayList.erase_sublist memObj.dispPath).filter _).length_le

theorem poReachable_dupCount {st : PathObserverState}
    (h : POReachable st) (np : Nat) : dupCount st np ≤ 1 := by
  induction h with
  | init hasRectSetter => exact Nat.zero_le 1
  | @observe st' b1 b2 np' name _ ih =>
      unfold observe
      by_cases h1 : b1 = true
      · rw [if_pos h1]
        by_cases h2 : b2 = true
        · rw [if_pos h2]
          cases name with
          | added => exact dupCount_addPath np np' st' ih
          | removed => exact dupCount_removePath np np' st' ih
          | other => exact ih
        · rw [if_neg h2]
          exact ih
      · rw [if_neg h1]
        exact ih

/-- C10: if the display list already contains a DisplayPath for `np`, then
`addPath(np)` — and hence an `OBJECT_ADDED` event for `np` — changes nothing
at all (no new DisplayPath, no observer, no resize, no `memObjs_` entry); and
in every reachable `PathObserver` state at most one DisplayPath in the
display list displays `np`. -/
theorem pathObserver_no_duplicates (np : Nat) (st : PathObserverState) :
    ((find st.displayList np).isSome → addPath np st = st ∧
      observe true true np .added st = st) ∧
    (POReachable st → dupCount st np ≤ 1) := by
  constructor
  · intro h
    have ha := addPath_found h
    exact ⟨ha, ha⟩
  · intro h
    exact poReachable_dupCount h np

/-- Witness for C10: after one `addPath(5)` on a fresh observer, a second
`addPath(5)` (equivalently a second `OBJECT_ADDED` event) is a no-op, and the
reached state has no duplicate DisplayPath for path 5. -/
theorem pathObserver_no_duplicates_witness :
    (addPath 5 (addPath 5 (initPO true)) = addPath 5 (initPO true) ∧
      observe true true 5 .added (addPath 5 (initPO true)) =
        addPath 5 (initPO true)) ∧
    dupCount (addPath 5 (initPO true)) 5 ≤ 1 :=
  ⟨(pathObserver_no_duplicates 5 (addPath 5 (initPO true))).1 (by decide),
   (pathObserver_no_duplicates 5 (addPath 5 (initPO true))).2
     (POReachable.observe true true 5 .added (POReachable.init true))⟩

end MplPathObserver
